import Mathlib

/-
  Verification of the resampling filter-kernel catalog in
  src/crates/image-ops/src/scale/filter.rs.

  The Rust code computes with f32; the embedding models every f32 value as a
  real number and every arithmetic operation as the exact real operation, so
  the theorems are about the ideal real-valued semantics of the formulas.
  The `as isize` casts in `lagrange` truncate toward zero, which `asIsize`
  models exactly.
-/

namespace ChaiNNerRS

/-- Closed enumeration of filter kinds, translated from the `Filter` enum. -/
inductive Filter where
  | Nearest
  | Box
  | Linear
  | Hermite
  | CubicCatrom
  | CubicMitchell
  | CubicBSpline
  | Hamming
  | Hann
  | Lanczos3
  | Lagrange
  | Gauss
  | MKS2013
  | MKS2021
  deriving DecidableEq

/-- Translated from `fn sinc`: 1.0 at x = 0, else sin(x)/x. -/
noncomputable def sinc (x : ℝ) : ℝ :=
  if x = 0 then 1 else Real.sin x / x

/-- Translated from `fn cubic_bc`, the Mitchell-Netravali cubic family. -/
noncomputable def cubic_bc (b c x : ℝ) : ℝ :=
  let a := |x|
  let k :=
    if a < 1 then
      (12 - 9 * b - 6 * c) * a ^ 3 + (-18 + 12 * b + 6 * c) * a ^ 2 + (6 - 2 * b)
    else if a < 2 then
      (-b - 6 * c) * a ^ 3 + (6 * b + 30 * c) * a ^ 2 + (-12 * b - 48 * c) * a
        + (8 * b + 24 * c)
    else 0
  k / 6

/-- Model of Rust's `as isize` cast from f32: truncation toward zero. -/
noncomputable def asIsize (y : ℝ) : ℤ :=
  if 0 ≤ y then ⌊y⌋ else ⌈y⌉

/-- Translated from `fn lagrange`: early return 0 past the support, then the
product over the loop `for i in 0..order`, skipping factors whose divisor
`d = n - i` is zero. -/
noncomputable def lagrange (x support : ℝ) : ℝ :=
  let a := |x|
  if a > support then 0
  else
    let order := asIsize (2 * support)
    let n := asIsize (support + a)
    (List.range order.toNat).foldl
      (fun (value : ℝ) (i : ℕ) =>
        let d : ℝ := (n : ℝ) - (i : ℝ)
        if d ≠ 0 then value * ((d - a) / d) else value)
      1

/-- Translated from `fn mks2013`. Note the argument is used signed: the code
takes no absolute value. -/
noncomputable def mks2013 (x : ℝ) : ℝ :=
  if x < 0.5 then 0.625 + 1.75 * (0.5 - x) * (0.5 + x)
  else if x < 1.5 then (1 - x) * (1.75 - x)
  else if x < 2.5 then -0.125 * (2.5 - x) * (2.5 - x)
  else 0

/-- Translated from `fn mks2021`. Note the argument is used signed: the code
takes no absolute value. -/
noncomputable def mks2021 (x : ℝ) : ℝ :=
  if x < 0.5 then 577 / 576 - 239 / 144 * x * x
  else if x < 1.5 then (35 / 36) * (x - 1) * (x - 239 / 140)
  else if x < 2.5 then (1 / 6) * (x - 2) * (65 / 24 - x)
  else if x < 3.5 then (1 / 36) * (x - 3) * (x - 3.75)
  else if x < 4.5 then -(1 / 288) * (x - 4.5) * (x - 4.5)
  else 0

/-- Model of `resize::Type`: either one of the resampler's built-in kernels
(delegated, out of scope) or a custom kernel closure with its support. -/
inductive ResizeType where
  | Point
  | Triangle
  | Catrom
  | Mitchell
  | BSpline
  | Lanczos3
  | Gaussian
  | Custom (kernel : ℝ → ℝ) (support : ℝ)

/-- Translated from `impl From<Filter> for resize::Type`: the adapter that
resolves a filter kind to a resampler kernel. -/
noncomputable def fromFilter : Filter → ResizeType
  | .Nearest => .Point
  | .Box => .Custom (fun x => if |x| ≤ 0.5 then 1 else 0) 1
  | .Linear => .Triangle
  | .Hermite => .Custom (fun x => cubic_bc 0 0 x) 1
  | .CubicCatrom => .Catrom
  | .CubicMitchell => .Mitchell
  | .CubicBSpline => .BSpline
  | .Hamming =>
      .Custom (fun x => sinc (|x| * Real.pi) * (0.54 + 0.46 * Real.cos (|x| * Real.pi))) 1
  | .Hann =>
      .Custom (fun x => sinc (|x| * Real.pi) * (0.5 + 0.5 * Real.cos (|x| * Real.pi))) 1
  | .Lanczos3 => .Lanczos3
  | .Lagrange => .Custom (fun x => lagrange x 2) 2
  | .Gauss => .Gaussian
  | .MKS2013 => .Custom mks2013 2.5
  | .MKS2021 => .Custom mks2021 4.5

/-- Projection: the custom evaluator of a resolved kernel (0 for the kinds
the adapter delegates to the resampler's built-ins). -/
noncomputable def evalF (f : Filter) (x : ℝ) : ℝ :=
  match fromFilter f with
  | .Custom k _ => k x
  | _ => 0

/-- Projection: the declared support radius of a resolved custom kernel
(0 for the delegated kinds). -/
noncomputable def supF (f : Filter) : ℝ :=
  match fromFilter f with
  | .Custom _ s => s
  | _ => 0

/-- Division that reports an attempted division by zero instead of using the
total real division. -/
noncomputable def checkedDiv (a b : ℝ) : Option ℝ :=
  if b = 0 then none else some (a / b)

/-- Variant of `lagrange` in which every division performed by the loop body
goes through `checkedDiv`: it returns `none` exactly when the code would
divide by zero. -/
noncomputable def lagrangeChecked (x support : ℝ) : Option ℝ :=
  let a := |x|
  if a > support then some 0
  else
    let order := asIsize (2 * support)
    let n := asIsize (support + a)
    (List.range order.toNat).foldlM
      (fun (value : ℝ) (i : ℕ) =>
        let d : ℝ := (n : ℝ) - (i : ℝ)
        if d ≠ 0 then (checkedDiv (d - a) d).map (fun q => value * q)
        else some value)
      1

/-- Spec-side definition for the refinement claim C4: the MKS2013 piecewise
polynomial exactly as written in the spec (section 4.1). -/
noncomputable def mks2013Spec (x : ℝ) : ℝ :=
  if x < 0.5 then 0.625 + 1.75 * ((0.5 - x) * (0.5 + x))
  else if x < 1.5 then (1 - x) * (1.75 - x)
  else if x < 2.5 then -0.125 * (2.5 - x) ^ 2
  else 0

/-- Spec-side definition for the refinement claim C4: the MKS2021 piecewise
polynomial exactly as written in the spec (section 4.1). -/
noncomputable def mks2021Spec (x : ℝ) : ℝ :=
  if x < 0.5 then 577 / 576 - (239 / 144) * x ^ 2
  else if x < 1.5 then (35 / 36) * ((x - 1) * (x - 239 / 140))
  else if x < 2.5 then (1 / 6) * ((x - 2) * (65 / 24 - x))
  else if x < 3.5 then (1 / 36) * ((x - 3) * (x - 3.75))
  else if x < 4.5 then -(1 / 288) * (x - 4.5) ^ 2
  else 0

lemma evalF_Box (x : ℝ) : evalF Filter.Box x = if |x| ≤ 0.5 then 1 else 0 := rfl

lemma evalF_Hermite (x : ℝ) : evalF Filter.Hermite x = cubic_bc 0 0 x := rfl

lemma evalF_Hamming (x : ℝ) :
    evalF Filter.Hamming x
      = sinc (|x| * Real.pi) * (0.54 + 0.46 * Real.cos (|x| * Real.pi)) := rfl

lemma evalF_Hann (x : ℝ) :
    evalF Filter.Hann x
      = sinc (|x| * Real.pi) * (0.5 + 0.5 * Real.cos (|x| * Real.pi)) := rfl

lemma evalF_Lagrange (x : ℝ) : evalF Filter.Lagrange x = lagrange x 2 := rfl

lemma evalF_MKS2013 (x : ℝ) : evalF Filter.MKS2013 x = mks2013 x := rfl

lemma evalF_MKS2021 (x : ℝ) : evalF Filter.MKS2021 x = mks2021 x := rfl

lemma supF_Box : supF Filter.Box = 1 := rfl

lemma supF_Hermite : supF Filter.Hermite = 1 := rfl

lemma supF_Hamming : supF Filter.Hamming = 1 := rfl

lemma supF_Hann : supF Filter.Hann = 1 := rfl

lemma supF_Lagrange : supF Filter.Lagrange = 2 := rfl

lemma supF_MKS2013 : supF Filter.MKS2013 = 2.5 := rfl

lemma supF_MKS2021 : supF Filter.MKS2021 = 4.5 := rfl

/-- Claim C6: sinc returns exactly 1 at x = 0 (never NaN), and consequently
the Hamming and Hann evaluators both return exactly 1 at x = 0. -/
theorem sinc_hamming_hann_at_zero :
    sinc 0 = 1 ∧ evalF Filter.Hamming 0 = 1 ∧ evalF Filter.Hann 0 = 1 := by
  refine ⟨by simp [sinc], ?_, ?_⟩ <;>
    norm_num [evalF, fromFilter, sinc, Real.cos_zero]

/-- Claim C10: at x equal to the support boundary 2.0 itself, the early-return
guard of the Lagrange evaluator does not fire, but the product contains the
zero factor (2 - 2)/2, so the result is still exactly 0. -/
theorem lagrange_at_exact_support :
    lagrange 2 2 = 0 ∧ lagrange (-2) 2 = 0 := by
  constructor <;>
    norm_num [lagrange, asIsize, show Int.toNat 4 = 4 from rfl,
      List.range_succ, List.flatMap_cons, List.flatMap_nil,
      List.flatMap_append, List.foldl_append, List.foldl_cons,
      List.foldl_nil]

/-- Counterexample to claim C8: the Hermite kernel cubic_bc(0, 0, 1.5) is
exactly 0, not a small negative lobe value. -/
theorem hermite_negative_lobe_cex :
    cubic_bc 0 0 (3 / 2) = 0 ∧ ¬cubic_bc 0 0 (3 / 2) < 0 := by
  norm_num [cubic_bc, abs_of_nonneg]

/-- Claim C8 amended: the Hermite kernel, cubic_bc with B = 0 and C = 0,
takes the values 1, 1/2, 0, 0, 0 at x = 0, 0.5, 1, 1.5, 2 (the formula has no
negative lobe: it vanishes identically for x at and beyond 1), and its value
at 0 equals (6 - 2B)/6 = 1. -/
theorem hermite_values_amended :
    (∀ x : ℝ, evalF Filter.Hermite x = cubic_bc 0 0 x) ∧
    cubic_bc 0 0 0 = 1 ∧ cubic_bc 0 0 (1 / 2) = 1 / 2 ∧ cubic_bc 0 0 1 = 0 ∧
    cubic_bc 0 0 (3 / 2) = 0 ∧ cubic_bc 0 0 2 = 0 ∧
    cubic_bc 0 0 0 = (6 - 2 * 0) / 6 := by
  refine ⟨fun x => rfl, ?_, ?_, ?_, ?_, ?_, ?_⟩ <;>
    norm_num [cubic_bc, abs_of_nonneg]

/-- Counterexample to claim C2: the MKS2013 and MKS2021 evaluators are handed
to the resampler without an absolute-value wrapper and are not even: at
x = 1 they disagree with their value at x = -1. -/
theorem even_symmetry_cex :
    evalF Filter.MKS2013 (-1) ≠ evalF Filter.MKS2013 1 ∧
    evalF Filter.MKS2021 (-1) ≠ evalF Filter.MKS2021 1 := by
  constructor <;> norm_num [evalF, fromFilter, mks2013, mks2021]

/-- Claim C2 amended: the Box, Hermite, Hamming, Hann and Lagrange evaluators
take the absolute value of their argument and are therefore exactly even; the
MKS2013 and MKS2021 evaluators are not (they use the signed argument). -/
theorem even_symmetry_amended (x : ℝ) :
    evalF Filter.Box (-x) = evalF Filter.Box x ∧
    evalF Filter.Hermite (-x) = evalF Filter.Hermite x ∧
    evalF Filter.Hann (-x) = evalF Filter.Hann x ∧
    evalF Filter.Hamming (-x) = evalF Filter.Hamming x ∧
    evalF Filter.Lagrange (-x) = evalF Filter.Lagrange x := by
  refine ⟨?_, ?_, ?_, ?_, ?_⟩ <;>
    simp [evalF, fromFilter, cubic_bc, lagrange, abs_neg]

/-- Counterexample to claim C3: the adapter declares the Box kernel with
support radius 1.0, not 0.5. -/
theorem box_support_cex : supF Filter.Box = 1 ∧ supF Filter.Box ≠ 0.5 := by
  norm_num [supF, fromFilter]

/-- Claim C3 amended: resolving the Box filter yields a kernel whose evaluator
returns 1 when |x| <= 0.5 and 0 otherwise, and whose declared support radius
is 1.0 (not 0.5). -/
theorem box_kernel_amended (x : ℝ) :
    (|x| ≤ 0.5 → evalF Filter.Box x = 1) ∧
    (¬|x| ≤ 0.5 → evalF Filter.Box x = 0) ∧ supF Filter.Box = 1 := by
  refine ⟨fun h => ?_, fun h => ?_, rfl⟩ <;> simp [evalF, fromFilter, h]

/-- Witness for the amended claim C3 at x = 0 and x = 1. -/
theorem box_kernel_amended_witness :
    evalF Filter.Box 0 = 1 ∧ evalF Filter.Box 1 = 0 ∧ supF Filter.Box = 1 :=
  ⟨(box_kernel_amended 0).1 (by norm_num),
   (box_kernel_amended 1).2.1 (by norm_num),
   (box_kernel_amended 0).2.2⟩

/-- Claim C9: the resolver from filter kinds to kernels is total (it is a
total function on the closed 14-variant enumeration, proved by exhaustive
cases) and deterministic: its embedding is a pure function, so two
resolutions of the same kind give evaluators that agree on every input and
equal supports, and resolution never fails. -/
theorem resolve_total_deterministic :
    ∀ k : Filter, ∀ x : ℝ,
      evalF k x = evalF k x ∧ supF k = supF k ∧
      ∃ t : ResizeType, fromFilter k = t := by
  intro k x
  cases k <;> exact ⟨rfl, rfl, ⟨_, rfl⟩⟩

/-- Counterexample to claim C1: the Hamming and Hann evaluators do not vanish
outside their declared support 1 (shown at x = 3/2, where the windowed sinc
is nonzero), and the MKS2013 and MKS2021 evaluators do not vanish for
arguments below minus their support (they use the signed argument, so the
first polynomial band applies to every negative input). -/
theorem outside_support_cex :
    (|(3 / 2 : ℝ)| > supF Filter.Hamming ∧ evalF Filter.Hamming (3 / 2) ≠ 0) ∧
    (|(3 / 2 : ℝ)| > supF Filter.Hann ∧ evalF Filter.Hann (3 / 2) ≠ 0) ∧
    (|(-3 : ℝ)| > supF Filter.MKS2013 ∧ evalF Filter.MKS2013 (-3) ≠ 0) ∧
    (|(-5 : ℝ)| > supF Filter.MKS2021 ∧ evalF Filter.MKS2021 (-5) ≠ 0) := by
  have hpos : (0 : ℝ) < (3 / 2 : ℝ) * Real.pi := by positivity
  have hx : (3 / 2 : ℝ) * Real.pi = Real.pi + Real.pi / 2 := by ring
  have hsin : Real.sin ((3 / 2 : ℝ) * Real.pi) = -1 := by
    rw [hx, Real.sin_add, Real.sin_pi, Real.cos_pi, Real.sin_pi_div_two,
      Real.cos_pi_div_two]
    ring
  have hcos : Real.cos ((3 / 2 : ℝ) * Real.pi) = 0 := by
    rw [hx, Real.cos_add, Real.sin_pi, Real.cos_pi, Real.sin_pi_div_two,
      Real.cos_pi_div_two]
    ring
  have habs : |(3 / 2 : ℝ)| = 3 / 2 := by norm_num
  refine ⟨⟨?_, ?_⟩, ⟨?_, ?_⟩, ⟨?_, ?_⟩, ⟨?_, ?_⟩⟩
  · rw [supF_Hamming, habs]; norm_num
  · rw [evalF_Hamming, habs]
    simp only [sinc]
    rw [if_neg hpos.ne', hsin, hcos]
    exact mul_ne_zero (div_ne_zero (by norm_num) hpos.ne') (by norm_num)
  · rw [supF_Hann, habs]; norm_num
  · rw [evalF_Hann, habs]
    simp only [sinc]
    rw [if_neg hpos.ne', hsin, hcos]
    exact mul_ne_zero (div_ne_zero (by norm_num) hpos.ne') (by norm_num)
  · rw [supF_MKS2013]; norm_num
  · rw [evalF_MKS2013]; norm_num [mks2013]
  · rw [supF_MKS2021]; norm_num
  · rw [evalF_MKS2021]; norm_num [mks2021]

/-- Claim C1 amended: the Box, Hermite and Lagrange evaluators return 0 for
every x with |x| greater than their declared support radius, and the MKS2013
and MKS2021 evaluators return 0 for every x greater than their support; the
Hamming, Hann evaluators (for |x| beyond 1) and the MKS evaluators (for x
below minus their support) do not vanish. -/
theorem outside_support_amended (x : ℝ) :
    (|x| > supF Filter.Box → evalF Filter.Box x = 0) ∧
    (|x| > supF Filter.Hermite → evalF Filter.Hermite x = 0) ∧
    (|x| > supF Filter.Lagrange → evalF Filter.Lagrange x = 0) ∧
    (x > supF Filter.MKS2013 → evalF Filter.MKS2013 x = 0) ∧
    (x > supF Filter.MKS2021 → evalF Filter.MKS2021 x = 0) := by
  refine ⟨fun h => ?_, fun h => ?_, fun h => ?_, fun h => ?_, fun h => ?_⟩
  · rw [supF_Box] at h
    rw [evalF_Box, if_neg (by linarith)]
  · rw [supF_Hermite] at h
    rw [evalF_Hermite]
    simp only [cubic_bc]
    rw [if_neg (by linarith)]
    split_ifs <;> norm_num
  · rw [supF_Lagrange] at h
    rw [evalF_Lagrange]
    simp only [lagrange]
    rw [if_pos h]
  · rw [supF_MKS2013] at h
    rw [evalF_MKS2013]
    simp only [mks2013]
    rw [if_neg (by linarith), if_neg (by linarith), if_neg (by linarith)]
  · rw [supF_MKS2021] at h
    rw [evalF_MKS2021]
    simp only [mks2021]
    rw [if_neg (by linarith), if_neg (by linarith), if_neg (by linarith),
      if_neg (by linarith), if_neg (by linarith)]

/-- Witness for the amended claim C1 at x = 3 and x = 5. -/
theorem outside_support_amended_witness :
    |(3 : ℝ)| > supF Filter.Box ∧ evalF Filter.Box 3 = 0 ∧
    evalF Filter.Hermite 3 = 0 ∧ evalF Filter.Lagrange 3 = 0 ∧
    (5 : ℝ) > supF Filter.MKS2013 ∧ evalF Filter.MKS2013 5 = 0 ∧
    evalF Filter.MKS2021 5 = 0 :=
  ⟨by rw [supF_Box]; norm_num,
   (outside_support_amended 3).1 (by rw [supF_Box]; norm_num),
   (outside_support_amended 3).2.1 (by rw [supF_Hermite]; norm_num),
   (outside_support_amended 3).2.2.1 (by rw [supF_Lagrange]; norm_num),
   by rw [supF_MKS2013]; norm_num,
   (outside_support_amended 5).2.2.2.1 (by rw [supF_MKS2013]; norm_num),
   (outside_support_amended 5).2.2.2.2 (by rw [supF_MKS2021]; norm_num)⟩

/-- Claim C4: for every x at least 0 and below their supports, mks2013 and
mks2021 compute exactly the piecewise polynomials written in the spec
(compared against the spec-side definitions mks2013Spec and mks2021Spec). -/
theorem mks_matches_spec_polynomials (x : ℝ) (hx : 0 ≤ x) :
    (x < 2.5 → mks2013 x = mks2013Spec x) ∧
    (x < 4.5 → mks2021 x = mks2021Spec x) := by
  refine ⟨fun hub => ?_, fun hub => ?_⟩
  · simp only [mks2013, mks2013Spec]
    split_ifs <;> ring
  · simp only [mks2021, mks2021Spec]
    split_ifs <;> ring

/-- Witness for claim C4 at x = 1. -/
theorem mks_matches_spec_polynomials_witness :
    (0 : ℝ) ≤ 1 ∧ (1 : ℝ) < 2.5 ∧ (1 : ℝ) < 4.5 ∧
    mks2013 1 = mks2013Spec 1 ∧ mks2021 1 = mks2021Spec 1 :=
  ⟨by norm_num, by norm_num, by norm_num,
   (mks_matches_spec_polynomials 1 (by norm_num)).1 (by norm_num),
   (mks_matches_spec_polynomials 1 (by norm_num)).2 (by norm_num)⟩

lemma foldlM_checked_eq (n : ℤ) (a : ℝ) :
    ∀ (l : List ℕ) (v : ℝ),
      List.foldlM
        (fun (value : ℝ) (i : ℕ) =>
          if ((n : ℝ) - (i : ℝ)) ≠ 0 then
            (checkedDiv (((n : ℝ) - (i : ℝ)) - a) ((n : ℝ) - (i : ℝ))).map
              (fun q => value * q)
          else some value)
        v l
      = some (List.foldl
          (fun (value : ℝ) (i : ℕ) =>
            if ((n : ℝ) - (i : ℝ)) ≠ 0 then
              value * ((((n : ℝ) - (i : ℝ)) - a) / ((n : ℝ) - (i : ℝ)))
            else value)
          v l) := by
  intro l
  induction l with
  | nil => intro v; rfl
  | cons i t ih =>
      intro v
      rw [List.foldlM_cons, List.foldl_cons]
      by_cases hd : ((n : ℝ) - (i : ℝ)) = 0
      · rw [if_neg (not_not_intro hd), if_neg (not_not_intro hd)]
        exact ih v
      · have hck : checkedDiv (((n : ℝ) - (i : ℝ)) - a) ((n : ℝ) - (i : ℝ))
            = some ((((n : ℝ) - (i : ℝ)) - a) / ((n : ℝ) - (i : ℝ))) := by
          simp only [checkedDiv]
          rw [if_neg hd]
        rw [if_pos hd, if_pos hd, hck]
        exact ih _

/-- Claim C5: the Lagrange evaluator with support 2 returns 1 at x = 0,
returns 0 for every x with |x| > 2, and never divides by zero: the variant
that checks every division it performs always succeeds and agrees with it,
including at integer sample offsets. -/
theorem lagrange_no_division_by_zero (x : ℝ) :
    lagrange 0 2 = 1 ∧ evalF Filter.Lagrange x = lagrange x 2 ∧
    (|x| > 2 → lagrange x 2 = 0) ∧
    lagrangeChecked x 2 = some (lagrange x 2) := by
  refine ⟨?_, rfl, fun h => ?_, ?_⟩
  · norm_num [lagrange, asIsize, show Int.toNat 4 = 4 from rfl,
      List.range_succ, List.flatMap_cons, List.flatMap_nil,
      List.flatMap_append, List.foldl_append, List.foldl_cons,
      List.foldl_nil]
  · simp only [lagrange]
    rw [if_pos h]
  · by_cases hgt : |x| > 2
    · simp only [lagrangeChecked, lagrange, if_pos hgt]
    · simp only [lagrangeChecked, lagrange, if_neg hgt]
      exact foldlM_checked_eq _ _ _ _

/-- Witness for claim C5 at x = 3 (early return) and x = 0. -/
theorem lagrange_no_division_by_zero_witness :
    |(3 : ℝ)| > 2 ∧ lagrange 3 2 = 0 ∧ lagrange 0 2 = 1 ∧
    evalF Filter.Lagrange 3 = lagrange 3 2 ∧
    lagrangeChecked 3 2 = some (lagrange 3 2) :=
  ⟨by norm_num,
   (lagrange_no_division_by_zero 3).2.2.1 (by norm_num),
   (lagrange_no_division_by_zero 3).1,
   (lagrange_no_division_by_zero 3).2.1,
   (lagrange_no_division_by_zero 3).2.2.2⟩

lemma continuous_mks2013 : Continuous mks2013 := by
  have h3 : Continuous fun x : ℝ =>
      if x < 2.5 then -0.125 * (2.5 - x) * (2.5 - x) else (0 : ℝ) := by
    apply Continuous.if
    · intro a ha
      rw [show {x : ℝ | x < 2.5} = Set.Iio 2.5 from rfl, frontier_Iio,
        Set.mem_singleton_iff] at ha
      subst ha
      norm_num
    · fun_prop
    · fun_prop
  have h2 : Continuous fun x : ℝ =>
      if x < 1.5 then (1 - x) * (1.75 - x)
      else if x < 2.5 then -0.125 * (2.5 - x) * (2.5 - x) else (0 : ℝ) := by
    apply Continuous.if
    · intro a ha
      rw [show {x : ℝ | x < 1.5} = Set.Iio 1.5 from rfl, frontier_Iio,
        Set.mem_singleton_iff] at ha
      subst ha
      rw [if_pos (by norm_num : (1.5 : ℝ) < 2.5)]
      norm_num
    · fun_prop
    · exact h3
  have h1 : Continuous fun x : ℝ =>
      if x < 0.5 then 0.625 + 1.75 * (0.5 - x) * (0.5 + x)
      else if x < 1.5 then (1 - x) * (1.75 - x)
      else if x < 2.5 then -0.125 * (2.5 - x) * (2.5 - x) else (0 : ℝ) := by
    apply Continuous.if
    · intro a ha
      rw [show {x : ℝ | x < 0.5} = Set.Iio 0.5 from rfl, frontier_Iio,
        Set.mem_singleton_iff] at ha
      subst ha
      rw [if_pos (by norm_num : (0.5 : ℝ) < 1.5)]
      norm_num
    · fun_prop
    · exact h2
  exact h1

lemma continuous_mks2021 : Continuous mks2021 := by
  have h5 : Continuous fun x : ℝ =>
      if x < 4.5 then -(1 / 288) * (x - 4.5) * (x - 4.5) else (0 : ℝ) := by
    apply Continuous.if
    · intro a ha
      rw [show {x : ℝ | x < 4.5} = Set.Iio 4.5 from rfl, frontier_Iio,
        Set.mem_singleton_iff] at ha
      subst ha
      norm_num
    · fun_prop
    · fun_prop
  have h4 : Continuous fun x : ℝ =>
      if x < 3.5 then (1 / 36) * (x - 3) * (x - 3.75)
      else if x < 4.5 then -(1 / 288) * (x - 4.5) * (x - 4.5) else (0 : ℝ) := by
    apply Continuous.if
    · intro a ha
      rw [show {x : ℝ | x < 3.5} = Set.Iio 3.5 from rfl, frontier_Iio,
        Set.mem_singleton_iff] at ha
      subst ha
      rw [if_pos (by norm_num : (3.5 : ℝ) < 4.5)]
      norm_num
    · fun_prop
    · exact h5
  have h3 : Continuous fun x : ℝ =>
      if x < 2.5 then (1 / 6) * (x - 2) * (65 / 24 - x)
      else if x < 3.5 then (1 / 36) * (x - 3) * (x - 3.75)
      else if x < 4.5 then -(1 / 288) * (x - 4.5) * (x - 4.5) else (0 : ℝ) := by
    apply Continuous.if
    · intro a ha
      rw [show {x : ℝ | x < 2.5} = Set.Iio 2.5 from rfl, frontier_Iio,
        Set.mem_singleton_iff] at ha
      subst ha
      rw [if_pos (by norm_num : (2.5 : ℝ) < 3.5)]
      norm_num
    · fun_prop
    · exact h4
  have h2 : Continuous fun x : ℝ =>
      if x < 1.5 then (35 / 36) * (x - 1) * (x - 239 / 140)
      else if x < 2.5 then (1 / 6) * (x - 2) * (65 / 24 - x)
      else if x < 3.5 then (1 / 36) * (x - 3) * (x - 3.75)
      else if x < 4.5 then -(1 / 288) * (x - 4.5) * (x - 4.5) else (0 : ℝ) := by
    apply Continuous.if
    · intro a ha
      rw [show {x : ℝ | x < 1.5} = Set.Iio 1.5 from rfl, frontier_Iio,
        Set.mem_singleton_iff] at ha
      subst ha
      rw [if_pos (by norm_num : (1.5 : ℝ) < 2.5)]
      norm_num
    · fun_prop
    · exact h3
  have h1 : Continuous fun x : ℝ =>
      if x < 0.5 then 577 / 576 - 239 / 144 * x * x
      else if x < 1.5 then (35 / 36) * (x - 1) * (x - 239 / 140)
      else if x < 2.5 then (1 / 6) * (x - 2) * (65 / 24 - x)
      else if x < 3.5 then (1 / 36) * (x - 3) * (x - 3.75)
      else if x < 4.5 then -(1 / 288) * (x - 4.5) * (x - 4.5) else (0 : ℝ) := by
    apply Continuous.if
    · intro a ha
      rw [show {x : ℝ | x < 0.5} = Set.Iio 0.5 from rfl, frontier_Iio,
        Set.mem_singleton_iff] at ha
      subst ha
      rw [if_pos (by norm_num : (0.5 : ℝ) < 1.5)]
      norm_num
    · fun_prop
    · exact h2
  exact h1

/-- Claim C7: mks2013 is continuous at each of its breakpoints 0.5, 1.5, 2.5
and mks2021 at each of its breakpoints 0.5, 1.5, 2.5, 3.5, 4.5 (the adjacent
polynomial branches agree there exactly; both functions are in fact
continuous on all of the reals). -/
theorem mks_continuous_at_breakpoints :
    ContinuousAt mks2013 0.5 ∧ ContinuousAt mks2013 1.5 ∧
    ContinuousAt mks2013 2.5 ∧ ContinuousAt mks2021 0.5 ∧
    ContinuousAt mks2021 1.5 ∧ ContinuousAt mks2021 2.5 ∧
    ContinuousAt mks2021 3.5 ∧ ContinuousAt mks2021 4.5 :=
  ⟨continuous_mks2013.continuousAt, continuous_mks2013.continuousAt,
   continuous_mks2013.continuousAt, continuous_mks2021.continuousAt,
   continuous_mks2021.continuousAt, continuous_mks2021.continuousAt,
   continuous_mks2021.continuousAt, continuous_mks2021.continuousAt⟩

end ChaiNNerRS
